import Mathlib

/-!
Shallow embedding of the employee-dataset notebook (src/datatypes.ipynb):
a rectangular table of named columns, dtype-based classification of columns
into Discrete / Continuous / Categorical (the `select_dtypes` cell), numeric
summaries (the salary min/max/mean/median cell and `df.describe`), and
categorical summaries (the `value_counts` / `nunique` cells).
Floating-point values are modelled as rationals; the notebook's literal data
has exact decimal values, so every printed statistic other than the standard
deviation is an exact rational.
-/

namespace Datatypes

/-- The pandas dtypes relevant to the notebook: the dtypes named in the
`select_dtypes` include-lists (int64/int32, float64/float32, object) plus
two dtypes outside every include-list (bool, datetime64). -/
inductive Dtype where
  | int64
  | int32
  | float64
  | float32
  | object
  | bool
  | datetime64
  deriving DecidableEq

/-- Column payload; the constructor determines the column's primitive dtype,
mirroring how pandas infers int64 / float64 / object from Python literals. -/
inductive ColData where
  | ints (xs : List Int)
  | floats (xs : List ℚ)
  | texts (xs : List String)
  | bools (xs : List Bool)
  | datetimes (xs : List Int)
  deriving DecidableEq

/-- The dtype pandas assigns to each kind of column payload. -/
def ColData.dtype : ColData → Dtype
  | .ints _ => .int64
  | .floats _ => .float64
  | .texts _ => .object
  | .bools _ => .bool
  | .datetimes _ => .datetime64

/-- Number of rows in a column. -/
def ColData.length : ColData → Nat
  | .ints xs => xs.length
  | .floats xs => xs.length
  | .texts xs => xs.length
  | .bools xs => xs.length
  | .datetimes xs => xs.length

/-- A named column. -/
structure Col where
  name : String
  data : ColData
  deriving DecidableEq

/-- A table: ordered list of named columns (insertion order is significant). -/
structure Table where
  cols : List Col
  deriving DecidableEq

/-- All columns share the same row count. -/
def Table.Rectangular (t : Table) : Prop :=
  ∀ c ∈ t.cols, ∀ c' ∈ t.cols, c.data.length = c'.data.length

instance (t : Table) : Decidable t.Rectangular :=
  inferInstanceAs (Decidable (∀ c ∈ t.cols, ∀ c' ∈ t.cols, _ = _))

/-- The include-list of `df.select_dtypes(include=['int64', 'int32'])`. -/
def discreteInclude (d : Dtype) : Bool :=
  d == .int64 || d == .int32

/-- The include-list of `df.select_dtypes(include=['float64', 'float32'])`. -/
def continuousInclude (d : Dtype) : Bool :=
  d == .float64 || d == .float32

/-- The include-list of `df.select_dtypes(include=['object'])`. -/
def categoricalInclude (d : Dtype) : Bool :=
  d == .object

/-- `df.select_dtypes(include=...).columns.tolist()`: the names of the
columns whose dtype is in the include-list, in table order. -/
def select_dtypes (t : Table) (incl : Dtype → Bool) : List String :=
  (t.cols.filter (fun c => incl c.data.dtype)).map Col.name

/-- `discrete_cols` from the notebook's classification cell. -/
def discrete_cols (t : Table) : List String :=
  select_dtypes t discreteInclude

/-- `continuous_cols` from the notebook's classification cell. -/
def continuous_cols (t : Table) : List String :=
  select_dtypes t continuousInclude

/-- `categorical_cols` from the notebook's classification cell. -/
def categorical_cols (t : Table) : List String :=
  select_dtypes t categoricalInclude

/-- The three buckets produced by the classification cell. -/
structure Buckets where
  discrete : List String
  continuous : List String
  categorical : List String
  deriving DecidableEq

/-- `classify`: the notebook's classification cell, computing all three
bucket lists from the table's dtypes.  It is a total function: pandas
`select_dtypes` filters and never raises on dtypes outside the lists. -/
def classify (t : Table) : Buckets :=
  ⟨discrete_cols t, continuous_cols t, categorical_cols t⟩

/-- Sum of a list of rationals. -/
def listSum (xs : List ℚ) : ℚ :=
  xs.foldr (fun a b => a + b) 0

/-- `Series.mean()`: sum divided by row count. -/
def mean (xs : List ℚ) : ℚ :=
  listSum xs / (xs.length : ℚ)

/-- Ascending sort, as used by `Series.median()`. -/
def sortedAsc (xs : List ℚ) : List ℚ :=
  List.insertionSort (fun p q : ℚ => p ≤ q) xs

/-- `Series.median()`: middle element of the sorted values, or the average
of the two middle elements when the row count is even. -/
def median (xs : List ℚ) : ℚ :=
  let s := sortedAsc xs
  let n := xs.length
  if n % 2 = 1 then s.getD (n / 2) 0
  else (s.getD (n / 2 - 1) 0 + s.getD (n / 2) 0) / 2

/-- Sum of squared deviations from the mean. -/
def squaredDeviations (xs : List ℚ) : ℚ :=
  listSum (xs.map (fun x => (x - mean xs) ^ 2))

/-- The variance used by `df.describe()` / `Series.std()`: pandas defaults
to `ddof=1`, the sample definition with divisor `n - 1`.  The standard
deviation is its (irrational) square root. -/
def sampleVariance (xs : List ℚ) : ℚ :=
  squaredDeviations xs / ((xs.length : ℚ) - 1)

/-- The population variance (divisor `n`), stated for comparison: pandas
`describe` does not use it. -/
def populationVariance (xs : List ℚ) : ℚ :=
  squaredDeviations xs / (xs.length : ℚ)

/-- Error taxonomy of the summarizer.  `EmptyColumnError` is raised when a
numeric summary is requested for a column with zero rows;
`UnsupportedColumnType` is listed in the design taxonomy but, as proved
below, the classification code never signals it. -/
inductive SummaryError where
  | EmptyColumnError
  | UnsupportedColumnType
  deriving DecidableEq

/-- Numeric summary record: the statistics printed by the salary cell
(min, max, mean, median) plus the describe cell's count and (squared)
spread.  `variance` is the sample variance; the printed standard deviation
is its square root. -/
structure NumStats where
  min : ℚ
  max : ℚ
  mean : ℚ
  median : ℚ
  variance : ℚ
  count : Nat
  deriving DecidableEq

/-- Modelled from the spec: the zero-row failure mode of `summarizeNumeric`
is missing from the notebook — the spec prescribes `EmptyColumnError` for a
column with no rows, while the notebook only ever summarizes the fixed
non-empty columns and contains no empty-column path.  The non-empty branch
follows the notebook's numeric-summary calls (`Series.min/max/mean/median`
and `df.describe`) packaged over one column. -/
def summarizeNumeric (xs : List ℚ) : Except SummaryError NumStats :=
  match xs with
  | [] => .error .EmptyColumnError
  | x :: rest =>
      .ok ⟨(x :: rest).foldr min x, (x :: rest).foldr max x,
           mean (x :: rest), median (x :: rest),
           sampleVariance (x :: rest), (x :: rest).length⟩

/-- The distinct values of a column, in order of first appearance. -/
def firstSeen : List String → List String
  | [] => []
  | x :: rest => x :: (firstSeen rest).filter (fun y => y != x)

/-- Ordering used by `Series.value_counts()`: larger count first; for equal
counts, the value that first appears earlier in the column comes first. -/
def catKeyLe (c : List String) (p q : String × Nat) : Bool :=
  decide (q.2 < p.2) || (decide (p.2 = q.2) && decide (c.indexOf p.1 ≤ c.indexOf q.1))

/-- `Series.value_counts()`: one `(value, count)` pair per distinct value,
sorted by descending count with ties in first-appearance order. -/
def value_counts (c : List String) : List (String × Nat) :=
  List.insertionSort (fun p q => catKeyLe c p q = true)
    ((firstSeen c).map (fun x => (x, c.count x)))

/-- `Series.nunique()`: number of distinct values. -/
def nunique (c : List String) : Nat :=
  (firstSeen c).length

/-- Output of the categorical summary: the frequency table and the derived
unique count. -/
structure CatSummary where
  freqs : List (String × Nat)
  uniqueCount : Nat
  deriving DecidableEq

/-- `summarizeCategorical`: the notebook's `value_counts` / `nunique` cells
packaged over one column.  Total: `value_counts` never fails, and an empty
column yields an empty frequency table with `uniqueCount = 0`. -/
def summarizeCategorical (c : List String) : CatSummary :=
  ⟨value_counts c, nunique c⟩

/-- Per-column report produced by the table-level description. -/
inductive ColReport where
  | numeric (stats : NumStats)
  | categorical (summary : CatSummary)
  deriving DecidableEq

/-- Cast an int64 column to rationals for numeric summarization. -/
def intsToRat (xs : List Int) : List ℚ :=
  xs.map (fun i => (i : ℚ))

/-- Summary of one column according to its dtype bucket: numeric columns get
the numeric summary, object columns the categorical one; columns outside
every include-list are skipped, exactly as the notebook's summary cells
never touch them. -/
def describeCol (c : Col) : Except SummaryError (Option (String × ColReport)) :=
  match c.data with
  | .ints xs => (summarizeNumeric (intsToRat xs)).map (fun s => some (c.name, .numeric s))
  | .floats xs => (summarizeNumeric xs).map (fun s => some (c.name, .numeric s))
  | .texts xs => .ok (some (c.name, .categorical (summarizeCategorical xs)))
  | .bools _ => .ok none
  | .datetimes _ => .ok none

/-- `describeTable`: sequential composition of the per-column summaries in
column order, propagating the first error encountered. -/
def describeTable (t : Table) : Except SummaryError (List (String × ColReport)) :=
  (t.cols.mapM describeCol).map (fun l => l.filterMap id)

/-- `classify` as a state-passing operation: the cell reads `df` and never
reassigns or mutates it, so the table component is returned unchanged. -/
def classifyOp (t : Table) : Table × Buckets :=
  (t, classify t)

/-- Numeric summary as a state-passing operation on the table. -/
def summarizeNumericOp (xs : List ℚ) (t : Table) :
    Table × Except SummaryError NumStats :=
  (t, summarizeNumeric xs)

/-- Categorical summary as a state-passing operation on the table. -/
def summarizeCategoricalOp (c : List String) (t : Table) : Table × CatSummary :=
  (t, summarizeCategorical c)

/-- Table description as a state-passing operation on the table. -/
def describeTableOp (t : Table) :
    Table × Except SummaryError (List (String × ColReport)) :=
  (t, describeTable t)

/-- `employee_data['employee_id']`. -/
def employee_id_vals : List Int :=
  [1001, 1002, 1003, 1004, 1005, 1006, 1007, 1008, 1009, 1010]

/-- `employee_data['name']`. -/
def name_vals : List String :=
  ["Alice Johnson", "Bob Smith", "Carol Davis", "David Wilson", "Eva Brown",
   "Frank Miller", "Grace Chen", "Henry Taylor", "Iris Garcia", "Jack Anderson"]

/-- `employee_data['department']`. -/
def department_vals : List String :=
  ["Engineering", "Marketing", "Engineering", "Sales", "HR",
   "Engineering", "Marketing", "Sales", "Finance", "Engineering"]

/-- `employee_data['years_experience']`. -/
def years_experience_vals : List Int :=
  [5, 8, 3, 12, 7, 2, 6, 15, 4, 9]

/-- `employee_data['salary']` (exact decimals as rationals). -/
def salary_vals : List ℚ :=
  [750005/10, 8200075/100, 68000, 9500025/100, 710008/10,
   62000, 780003/10, 105000, 730006/10, 8700090/100]

/-- `employee_data['education_level']`. -/
def education_level_vals : List String :=
  ["Bachelor", "Master", "Bachelor", "Master", "Bachelor",
   "Bachelor", "PhD", "Master", "Bachelor", "Master"]

/-- `employee_data['performance_rating']`. -/
def performance_rating_vals : List String :=
  ["Good", "Excellent", "Average", "Excellent", "Good",
   "Average", "Excellent", "Excellent", "Good", "Good"]

/-- `df = pd.DataFrame(employee_data)`: the literal 10-row, 7-column table,
columns in dictionary insertion order. -/
def employeeTable : Table :=
  ⟨[⟨"employee_id", .ints employee_id_vals⟩,
    ⟨"name", .texts name_vals⟩,
    ⟨"department", .texts department_vals⟩,
    ⟨"years_experience", .ints years_experience_vals⟩,
    ⟨"salary", .floats salary_vals⟩,
    ⟨"education_level", .texts education_level_vals⟩,
    ⟨"performance_rating", .texts performance_rating_vals⟩]⟩

/-- A table with a single column of unsupported primitive type (bool). -/
def boolTable : Table :=
  ⟨[⟨"flag", .bools [true, false]⟩]⟩

/-- A table mixing supported columns with bool and datetime64 columns. -/
def mixedTable : Table :=
  ⟨[⟨"employee_id", .ints [1, 2]⟩,
    ⟨"active", .bools [true, false]⟩,
    ⟨"hired", .datetimes [0, 1]⟩,
    ⟨"department", .texts ["Engineering", "Sales"]⟩]⟩

theorem mem_select_dtypes {t : Table} {incl : Dtype → Bool} {n : String} :
    n ∈ select_dtypes t incl ↔
      ∃ c, (c ∈ t.cols ∧ incl c.data.dtype = true) ∧ c.name = n := by
  simp [select_dtypes]

/-- Claim C2: on the salary column, `summarizeNumeric` returns
min = 62000.00, max = 105000.00, mean = 79600.41 and median = 76500.40,
matching the notebook's printed salary statistics. -/
theorem summarizeNumeric_salary :
    (summarizeNumeric salary_vals).map (fun s => (s.min, s.max, s.mean, s.median)) =
      Except.ok ((62000 : ℚ), (105000 : ℚ), (7960041 : ℚ)/100, (765004 : ℚ)/10) := by
  norm_num [summarizeNumeric, salary_vals, mean, listSum, median, sortedAsc,
    List.insertionSort, List.orderedInsert, Except.map]

/-- Claim C3: a numeric column with zero rows makes `summarizeNumeric` fail
with `EmptyColumnError` (never a numeric result), and a Table with one
numeric column and zero rows makes `describeTable` propagate that error. -/
theorem summarizeNumeric_empty (xs : List ℚ) (colName : String)
    (h : xs.length = 0) :
    summarizeNumeric xs = .error .EmptyColumnError ∧
    describeTable ⟨[⟨colName, ColData.floats xs⟩]⟩ =
      .error .EmptyColumnError := by
  cases xs with
  | nil => exact ⟨rfl, rfl⟩
  | cons a as => simp at h

/-- Witness for C3 at the empty salary column. -/
theorem summarizeNumeric_empty_witness :
    ([] : List ℚ).length = 0 ∧
    (summarizeNumeric ([] : List ℚ) = .error .EmptyColumnError ∧
      describeTable ⟨[⟨"salary", ColData.floats []⟩]⟩ =
        .error .EmptyColumnError) :=
  ⟨rfl, summarizeNumeric_empty [] "salary" rfl⟩

/-- Claim C5: `summarizeCategorical` on the department column returns the
frequency sequence Engineering:4, Marketing:2, Sales:2, HR:1, Finance:1
with uniqueCount 5, and on the education-level column Bachelor:5, Master:4,
PhD:1 with uniqueCount 3, matching the notebook's printed value counts. -/
theorem summarizeCategorical_dept_education :
    summarizeCategorical department_vals =
      ⟨[("Engineering", 4), ("Marketing", 2), ("Sales", 2),
        ("HR", 1), ("Finance", 1)], 5⟩ ∧
    summarizeCategorical education_level_vals =
      ⟨[("Bachelor", 5), ("Master", 4), ("PhD", 1)], 3⟩ := by
  exact ⟨by decide, by decide⟩

/-- Claim C7: `describeTable` is deterministic — two invocations on the
same Table (including the table handed back by the first invocation)
produce identical output. -/
theorem describeTable_deterministic (t : Table) :
    (describeTableOp ((describeTableOp t).1)).2 = (describeTableOp t).2 ∧
    describeTable t = describeTable t :=
  ⟨rfl, rfl⟩

/-- Claim C8: every operation hands the Table back unchanged — no column,
row, or column ordering is mutated by classification or summarization. -/
theorem operations_preserve_table (t : Table) (xs : List ℚ) (c : List String) :
    (classifyOp t).1 = t ∧ (summarizeNumericOp xs t).1 = t ∧
    (summarizeCategoricalOp c t).1 = t ∧ (describeTableOp t).1 = t :=
  ⟨rfl, rfl, rfl, rfl⟩

/-- Claim C9: the standard deviation printed by `df.describe()` uses the
sample definition (divisor n - 1).  The printed 6-decimal values 4.067486
(years_experience) and 13031.574396 (salary) are the roundings of the
square roots of the sample variances: each sample variance lies in the
square of the half-ulp interval around the printed value, while the
population variance (divisor n) lies strictly below it, so only the sample
definition reproduces the printed output. -/
theorem describe_std_is_sample :
    ((40674855 : ℚ)/10000000)^2 ≤ sampleVariance (intsToRat years_experience_vals) ∧
    sampleVariance (intsToRat years_experience_vals) < ((40674865 : ℚ)/10000000)^2 ∧
    ((130315743955 : ℚ)/10000000)^2 ≤ sampleVariance salary_vals ∧
    sampleVariance salary_vals < ((130315743965 : ℚ)/10000000)^2 ∧
    populationVariance (intsToRat years_experience_vals) < ((40674855 : ℚ)/10000000)^2 ∧
    populationVariance salary_vals < ((130315743955 : ℚ)/10000000)^2 := by
  norm_num [sampleVariance, populationVariance, squaredDeviations, listSum, mean,
    intsToRat, years_experience_vals, salary_vals]

/-- Counterexample to Claim C4 as stated: the classification code does not
signal `UnsupportedColumnType` on a Table containing a column of
unsupported primitive type.  On the one-bool-column table it returns a
normal (empty-bucket) classification, and the table description likewise
succeeds with an empty report. -/
theorem classify_boolTable_counterexample :
    classify boolTable = ⟨[], [], []⟩ ∧ describeTable boolTable = .ok [] :=
  ⟨rfl, rfl⟩

/-- Claim C4 (amended): `classify` is total and signals no error at all;
every name in a bucket comes from a column whose dtype is in that bucket's
include-list, so a Table with an unsupported column is not rejected — the
column is simply left out of every bucket. -/
theorem classify_no_failure (t : Table) (n : String) :
    (n ∈ (classify t).discrete →
      ∃ c, c ∈ t.cols ∧ discreteInclude c.data.dtype = true ∧ c.name = n) ∧
    (n ∈ (classify t).continuous →
      ∃ c, c ∈ t.cols ∧ continuousInclude c.data.dtype = true ∧ c.name = n) ∧
    (n ∈ (classify t).categorical →
      ∃ c, c ∈ t.cols ∧ categoricalInclude c.data.dtype = true ∧ c.name = n) := by
  refine ⟨fun h => ?_, fun h => ?_, fun h => ?_⟩ <;>
    obtain ⟨c, ⟨hc, hi⟩, hn⟩ := mem_select_dtypes.mp h <;>
    exact ⟨c, hc, hi, hn⟩

/-- Witness for the amended C4 at the employee table's first column. -/
theorem classify_no_failure_witness :
    "employee_id" ∈ (classify employeeTable).discrete ∧
    (∃ c, c ∈ employeeTable.cols ∧ discreteInclude c.data.dtype = true ∧
      c.name = "employee_id") :=
  ⟨by decide, (classify_no_failure employeeTable "employee_id").1 (by decide)⟩

/-- Claim C10: a column whose dtype is in none of the include-lists
(bool, datetime64) is silently omitted: `classify` raises no error and the
column's name lands in no bucket. -/
theorem classify_silently_omits (t : Table) (c : Col) (hc : c ∈ t.cols)
    (hun : discreteInclude c.data.dtype = false ∧
      continuousInclude c.data.dtype = false ∧
      categoricalInclude c.data.dtype = false)
    (hnodup : (t.cols.map Col.name).Nodup) :
    c.name ∉ (classify t).discrete ∧ c.name ∉ (classify t).continuous ∧
      c.name ∉ (classify t).categorical := by
  have hinj := List.inj_on_of_nodup_map hnodup
  refine ⟨fun hmem => ?_, fun hmem => ?_, fun hmem => ?_⟩
  · obtain ⟨c', ⟨hc', hincl⟩, hn'⟩ := mem_select_dtypes.mp hmem
    rw [hinj hc' hc hn'] at hincl
    rw [hun.1] at hincl
    exact Bool.false_ne_true hincl
  · obtain ⟨c', ⟨hc', hincl⟩, hn'⟩ := mem_select_dtypes.mp hmem
    rw [hinj hc' hc hn'] at hincl
    rw [hun.2.1] at hincl
    exact Bool.false_ne_true hincl
  · obtain ⟨c', ⟨hc', hincl⟩, hn'⟩ := mem_select_dtypes.mp hmem
    rw [hinj hc' hc hn'] at hincl
    rw [hun.2.2] at hincl
    exact Bool.false_ne_true hincl

/-- Witness for C10 at the mixed table's datetime64 column. -/
theorem classify_silently_omits_witness :
    (Col.mk "hired" (ColData.datetimes [0, 1]) ∈ mixedTable.cols ∧
      (discreteInclude (ColData.datetimes [0, 1]).dtype = false ∧
        continuousInclude (ColData.datetimes [0, 1]).dtype = false ∧
        categoricalInclude (ColData.datetimes [0, 1]).dtype = false) ∧
      (mixedTable.cols.map Col.name).Nodup) ∧
    ("hired" ∉ (classify mixedTable).discrete ∧
      "hired" ∉ (classify mixedTable).continuous ∧
      "hired" ∉ (classify mixedTable).categorical) :=
  ⟨⟨by decide, ⟨rfl, rfl, rfl⟩, by decide⟩,
    classify_silently_omits mixedTable ⟨"hired", .datetimes [0, 1]⟩
      (by decide) ⟨rfl, rfl, rfl⟩ (by decide)⟩

/-- Claim C1: on a well-formed Table (rectangular, with duplicate-free
column names, every column of primitive int, float, or text dtype),
`classify` puts each column name in exactly one of the Discrete,
Continuous, Categorical buckets: none missing, none duplicated across
buckets. -/
theorem classify_partition (t : Table) (hrect : t.Rectangular)
    (hsup : ∀ c ∈ t.cols,
      (discreteInclude c.data.dtype || continuousInclude c.data.dtype ||
        categoricalInclude c.data.dtype) = true)
    (hnodup : (t.cols.map Col.name).Nodup) :
    ∀ n ∈ t.cols.map Col.name,
      (n ∈ (classify t).discrete ∧ n ∉ (classify t).continuous ∧
        n ∉ (classify t).categorical) ∨
      (n ∉ (classify t).discrete ∧ n ∈ (classify t).continuous ∧
        n ∉ (classify t).categorical) ∨
      (n ∉ (classify t).discrete ∧ n ∉ (classify t).continuous ∧
        n ∈ (classify t).categorical) := by
  intro n hn
  obtain ⟨c0, hc0, hname⟩ := List.mem_map.mp hn
  have hinj := List.inj_on_of_nodup_map hnodup
  have key : ∀ incl : Dtype → Bool,
      n ∈ select_dtypes t incl ↔ incl c0.data.dtype = true := by
    intro incl
    constructor
    · intro hmem
      obtain ⟨c', ⟨hc', hincl⟩, hn'⟩ := mem_select_dtypes.mp hmem
      rw [hinj hc' hc0 (hn'.trans hname.symm)] at hincl
      exact hincl
    · intro hi
      exact mem_select_dtypes.mpr ⟨c0, ⟨hc0, hi⟩, hname⟩
  have h3 := hsup c0 hc0
  show (n ∈ select_dtypes t discreteInclude ∧
        n ∉ select_dtypes t continuousInclude ∧
        n ∉ select_dtypes t categoricalInclude) ∨
      (n ∉ select_dtypes t discreteInclude ∧
        n ∈ select_dtypes t continuousInclude ∧
        n ∉ select_dtypes t categoricalInclude) ∨
      (n ∉ select_dtypes t discreteInclude ∧
        n ∉ select_dtypes t continuousInclude ∧
        n ∈ select_dtypes t categoricalInclude)
  rw [key discreteInclude, key continuousInclude, key categoricalInclude]
  revert h3
  generalize c0.data.dtype = d
  cases d <;> decide

/-- Witness for C1 at the notebook's employee table. -/
theorem classify_partition_witness :
    (employeeTable.Rectangular ∧
      (∀ c ∈ employeeTable.cols,
        (discreteInclude c.data.dtype || continuousInclude c.data.dtype ||
          categoricalInclude c.data.dtype) = true) ∧
      (employeeTable.cols.map Col.name).Nodup) ∧
    (∀ n ∈ employeeTable.cols.map Col.name,
      (n ∈ (classify employeeTable).discrete ∧
        n ∉ (classify employeeTable).continuous ∧
        n ∉ (classify employeeTable).categorical) ∨
      (n ∉ (classify employeeTable).discrete ∧
        n ∈ (classify employeeTable).continuous ∧
        n ∉ (classify employeeTable).categorical) ∨
      (n ∉ (classify employeeTable).discrete ∧
        n ∉ (classify employeeTable).continuous ∧
        n ∈ (classify employeeTable).categorical)) :=
  ⟨⟨by decide, by decide, by decide⟩,
    classify_partition employeeTable (by decide) (by decide) (by decide)⟩

theorem catKeyLe_iff (c : List String) (p q : String × Nat) :
    catKeyLe c p q = true ↔
      q.2 < p.2 ∨ (p.2 = q.2 ∧ c.indexOf p.1 ≤ c.indexOf q.1) := by
  simp [catKeyLe]

instance instCatKeyLeTotal (c : List String) :
    IsTotal (String × Nat) (fun p q => catKeyLe c p q = true) := by
  constructor
  intro p q
  rw [catKeyLe_iff, catKeyLe_iff]
  omega

instance instCatKeyLeTrans (c : List String) :
    IsTrans (String × Nat) (fun p q => catKeyLe c p q = true) := by
  constructor
  intro a b d hab hbd
  rw [catKeyLe_iff] at hab hbd ⊢
  omega

/-- Claim C6: for every categorical column, the frequency pairs of
`summarizeCategorical` are sorted by descending count with ties in order of
first appearance (smaller first-occurrence index first); the pairs are a
permutation of the first-seen distinct values with their multiplicities
(so the operation is total and never fails); and the empty column yields an
empty sequence with uniqueCount 0. -/
theorem summarizeCategorical_ordering (c : List String) :
    List.Pairwise
      (fun p q : String × Nat =>
        q.2 < p.2 ∨ (p.2 = q.2 ∧ c.indexOf p.1 ≤ c.indexOf q.1))
      (summarizeCategorical c).freqs ∧
    (summarizeCategorical c).freqs.Perm
      ((firstSeen c).map (fun x => (x, c.count x))) ∧
    summarizeCategorical [] = ⟨[], 0⟩ := by
  refine ⟨?_, ?_, rfl⟩
  · have h := List.sorted_insertionSort (fun p q : String × Nat => catKeyLe c p q = true)
      ((firstSeen c).map (fun x => (x, c.count x)))
    exact h.imp (fun h' => (catKeyLe_iff c _ _).mp h')
  · exact List.perm_insertionSort _ _

end Datatypes
